import Mathlib

/-!
Shallow embedding of `power-manager` (src/power_manager/cli.py) in Lean 4.

The program is an orchestration script: it resolves a power action to a
command, optionally runs an animation subprocess synchronised through two
sentinel lines on stdout (`READY`, `BLACK`) latched into `threading.Event`s,
issues the power command, and performs IPC cleanup.

Modelling conventions:
* External effects (prints, debug-log writes, sleeps, subprocess launches,
  IPC calls) become entries of a trace (`Event` list), produced in the order
  the Python code performs them.
* External outcomes (the animation script path returned by discovery,
  `os.path.exists`, `loginctl list-sessions` stdout, the `efibootmgr`
  return code, per-attempt IPC success, whether a latch gets set within a
  wait's timeout, whether the subprocess exits within the 2s grace) are
  inputs, gathered in environment structures.
* Float second counts (5.0, 30.0, 2, 1.0, 3) are modelled as naturals; all
  of them are integral in the source.
* `threading.Event` is a boolean latch: `set()` makes it true, `wait(t)`
  returns true iff the latch is set at the call or becomes set within `t`.
* Python functions that loop forever (the hold loop) or die on an uncaught
  exception are given an explicit outcome constructor instead of a return.
-/

namespace PowerManager

/-- One observable effect of the program, in program order. -/
inductive Event where
  /-- `print(msg)` to stdout. -/
  | print (msg : String)
  /-- `print(msg, file=sys.stderr)`. -/
  | printErr (msg : String)
  /-- `debug_log(msg)`: append to the debug log file. -/
  | debugLog (msg : String)
  /-- `time.sleep(secs)`. -/
  | sleep (secs : Nat)
  /-- `subprocess.Popen(cmd, stdout=DEVNULL, stderr=DEVNULL)`: detached launch. -/
  | launchDetached (cmd : List String)
  /-- `subprocess.run(cmd, ...)`: synchronous run. -/
  | runSync (cmd : List String)
  /-- `subprocess.Popen(["python3", script], stdout=PIPE, ...)`: the animation. -/
  | spawnAnimation (script : String)
  /-- `self.ready_event.wait(timeout)` inside `wait_ready`. -/
  | waitReadyEv (timeout : Nat)
  /-- `self.black_event.wait(timeout)` inside `wait_black`. -/
  | waitBlackEv (timeout : Nat)
  /-- `animation.terminate()` as seen by the orchestrator. -/
  | terminateAnimation
  /-- `unfreeze_compositor(retry)` / `show_cursor(retry)`: one IPC cleanup
  helper call, recording the method it sends and whether it retries. -/
  | ipcCleanup (method : String) (retry : Bool)
  /-- One `send_ipc(method)` call (used by the stand-alone retry model). -/
  | sendIpcCall (method : String)
  /-- The `while True: time.sleep(1)` hold loop was entered (never returns). -/
  | holdForever
deriving DecidableEq, Repr

/-! ## Animation latches (`AnimationProcess.ready_event` / `black_event`) -/

/-- The two `threading.Event` latches of an `AnimationProcess`. -/
structure AnimEvents where
  ready : Bool
  black : Bool
deriving DecidableEq, Repr

/-- Latch state right after `__init__`: both events unset. -/
def animInit : AnimEvents := ⟨false, false⟩

/-- Python `str.strip()` with no argument: drop leading and trailing
whitespace.  (Defined on the character list by structural recursion so that
concrete instances evaluate inside the kernel.) -/
def pyStrip (s : String) : String :=
  ⟨((s.data.dropWhile Char.isWhitespace).reverse.dropWhile
      Char.isWhitespace).reverse⟩

/-- One iteration of the reader loop in `_read_signals`:
`line = line.strip(); if line == "READY": ready.set() elif line == "BLACK": black.set()`. -/
def processLine (s : AnimEvents) (line : String) : AnimEvents :=
  let l := pyStrip line
  if l = "READY" then { s with ready := true }
  else if l = "BLACK" then { s with black := true }
  else s

/-- `_read_signals`: fold the reader loop over the lines actually read from the
subprocess's stdout (the list ends when the stream ends — the process exited —
or when reading raised), then the `finally` block sets both events. -/
def read_signals (s : AnimEvents) (lines : List String) : AnimEvents :=
  let s' := lines.foldl processLine s
  { s' with ready := true, black := true }

/-- `threading.Event.wait(timeout)` semantics: returns true iff the latch is
already set, or (`arrives`) it becomes set within the timeout window. -/
def event_wait (latch arrives : Bool) : Bool := latch || arrives

/-- `wait_ready` returns `self.ready_event.wait(timeout=timeout)`. -/
def wait_ready_result (s : AnimEvents) (arrives : Bool) : Bool :=
  event_wait s.ready arrives

/-- `wait_black` returns `self.black_event.wait(timeout=timeout)`. -/
def wait_black_result (s : AnimEvents) (arrives : Bool) : Bool :=
  event_wait s.black arrives

/-- Every operation of `AnimationProcess` that runs while the latches live,
as a transformer of the latch state.  Only the reader thread writes the
latches; every other method leaves them untouched. -/
inductive AnimOp where
  /-- One line handled by the reader loop of `_read_signals`. -/
  | readLine (line : String)
  /-- The `finally:` block of `_read_signals` (stream ended or read raised). -/
  | readerExit
  /-- `wait_ready` — reads `ready_event`, never writes a latch. -/
  | waitReadyOp
  /-- `wait_black` — reads `black_event`, never writes a latch. -/
  | waitBlackOp
  /-- `is_running` — polls the process, never touches a latch. -/
  | isRunningOp
  /-- `terminate` — signals the process, never touches a latch. -/
  | terminateOp
deriving DecidableEq, Repr

/-- Effect of each `AnimationProcess` operation on the latch pair. -/
def applyAnimOp (s : AnimEvents) : AnimOp → AnimEvents
  | .readLine line => processLine s line
  | .readerExit => { ready := true, black := true }
  | .waitReadyOp => s
  | .waitBlackOp => s
  | .isRunningOp => s
  | .terminateOp => s

/-! ## IPC retry (`send_ipc_with_retry`) -/

/-- `send_ipc_with_retry(method, max_attempts=5, delay=1.0)`, counting model.
`ipc k` is whether the `k`-th `send_ipc` call (0-based) succeeds.  Returns
(result, number of `send_ipc` calls made, number of `time.sleep(delay)`s).
Transcribes:
```
for attempt in range(max_attempts):
    if send_ipc(method): return True
    if attempt < max_attempts - 1: sleep(delay)
return False
```
-/
def retryFrom (ipc : Nat → Bool) (max_attempts : Nat) (attempt : Nat) :
    Bool × Nat × Nat :=
  if attempt < max_attempts then
    if ipc attempt then (true, 1, 0)
    else
      let rest := retryFrom ipc max_attempts (attempt + 1)
      (rest.1, rest.2.1 + 1, rest.2.2 + (if attempt < max_attempts - 1 then 1 else 0))
  else (false, 0, 0)
termination_by max_attempts - attempt

/-- `send_ipc_with_retry` with the default `max_attempts=5`. -/
def send_ipc_with_retry (ipc : Nat → Bool) : Bool × Nat × Nat :=
  retryFrom ipc 5 0

/-! ## Action dispatch (`POWER_COMMANDS`) -/

/-- `POWER_COMMANDS.get(action)`.  The dict maps `"test"` to `None`; `.get` of
a key not in the dict is also `None`, so both are `none` here. -/
def POWER_COMMANDS (action : String) : Option (List String) :=
  if action = "shutdown" then some ["sudo", "-A", "shutdown", "-h", "now"]
  else if action = "reboot" then some ["sudo", "-A", "reboot"]
  else if action = "logout" then some ["loginctl", "terminate-session", ""]
  else if action = "suspend" then some ["systemctl", "suspend"]
  else if action = "hibernate" then some ["systemctl", "hibernate"]
  else if action = "windows" then some ["sudo", "-A", "reboot"]
  else none

/-- The `efibootmgr` boot-entry write issued for action `windows`. -/
def EFIBOOTMGR_CMD : List String := ["sudo", "-A", "efibootmgr", "--bootnext", "0003"]

/-- The `loginctl` session enumeration issued by `get_session_id`. -/
def LIST_SESSIONS_CMD : List String := ["loginctl", "list-sessions", "--no-legend"]

/-- Python `str.split()` with no argument: split on runs of whitespace,
dropping empty pieces. -/
def pySplitWs (s : String) : List String :=
  (s.split Char.isWhitespace).filter (fun t => t ≠ "")

/-- `get_session_id`: parse the stdout of `loginctl list-sessions --no-legend`;
the first whitespace token of the first line that has one, else `""`.
`out = none` models the `except Exception: pass` branch (the lookup raised). -/
def get_session_id (out : Option String) : String :=
  match out with
  | none => ""
  | some stdout =>
    match ((pyStrip stdout).splitOn "\n").find? (fun line => pySplitWs line ≠ []) with
    | some line => (pySplitWs line).headD ""
    | none => ""

/-! ## The power-action drivers -/

/-- External outcomes consumed by the drivers. -/
structure Env where
  /-- stdout of `loginctl list-sessions`; `none` = the lookup raised. -/
  loginctlOut : Option String
  /-- whether the `efibootmgr` write exits non-zero. -/
  efibootmgrFails : Bool
  /-- stderr text of the `efibootmgr` run (only appears in a log message). -/
  efibootmgrStderr : String

/-- How a driver call ends: `returns` = the Python function returns;
`holds` = it entered the infinite `while True: time.sleep(1)` loop. -/
inductive ExecOutcome where
  | returns
  | holds
deriving DecidableEq, Repr

/-- Trace and outcome of one driver call. -/
structure ExecResult where
  trace : List Event
  outcome : ExecOutcome
deriving DecidableEq, Repr

/-- `execute_power_action(action, animation, hold_time)` — the animated-path
driver.  `hasAnimation` is whether the `animation` argument is not `None`. -/
def execute_power_action (env : Env) (action : String) (hasAnimation : Bool)
    (hold_time : Nat) : ExecResult :=
  match POWER_COMMANDS action with
  | none =>
    -- Test mode - wait then terminate animation and cleanup
    { trace :=
        [.debugLog ("[TEST] Animation complete, waiting " ++ toString hold_time
            ++ " seconds..."),
         .print ("[TEST] Animation complete. Waiting " ++ toString hold_time
            ++ " seconds..."),
         .sleep hold_time]
        ++ (if hasAnimation then [.terminateAnimation] else [])
        ++ [.ipcCleanup "screen-freeze/unfreeze" false,
            .ipcCleanup "cursor-control/show" false,
            .debugLog "[TEST] Done",
            .print "[TEST] Done."],
      outcome := .returns }
  | some cmd0 =>
    -- Logout needs session ID
    let logoutPart : List Event × Option (List String) :=
      if action = "logout" then
        let sid := get_session_id env.loginctlOut
        if sid ≠ "" then
          ([.runSync LIST_SESSIONS_CMD,
            .debugLog ("Logout: using session ID " ++ sid)],
           some ["loginctl", "terminate-session", sid])
        else
          ([.runSync LIST_SESSIONS_CMD,
            .debugLog "ERROR: Could not determine session ID for logout",
            .printErr "ERROR: Could not determine session ID for logout"]
            ++ (if hasAnimation then [.terminateAnimation] else []),
           none)
      else ([], some cmd0)
    match logoutPart with
    | (tr, none) => { trace := tr, outcome := .returns }
    | (tr, some cmd) =>
      -- Windows needs boot entry
      let winTr : List Event :=
        if action = "windows" then
          [.debugLog "Setting Windows boot entry...", .runSync EFIBOOTMGR_CMD]
            ++ (if env.efibootmgrFails then
                  [.debugLog ("WARNING: efibootmgr failed: " ++ env.efibootmgrStderr),
                   .printErr "WARNING: Could not set Windows boot entry"]
                else [])
        else []
      let cmdStr := String.intercalate " " cmd
      let launchTr : List Event :=
        [.debugLog ("Executing power action: " ++ cmdStr),
         .print ("Executing: " ++ cmdStr),
         .launchDetached cmd]
      if action = "suspend" || action = "hibernate" then
        { trace := tr ++ winTr ++ launchTr
            ++ [.debugLog "Waiting for resume from suspend/hibernate...",
                .sleep 3]
            ++ (if hasAnimation then [.terminateAnimation] else [])
            ++ [.ipcCleanup "screen-freeze/unfreeze" true,
                .ipcCleanup "cursor-control/show" true,
                .debugLog "Resumed from suspend/hibernate, compositor unfrozen"],
          outcome := .returns }
      else
        { trace := tr ++ winTr ++ launchTr
            ++ [.debugLog "Holding until system shuts down...", .holdForever],
          outcome := .holds }

/-- `run_without_animation(action, hold_time)` — the no-animation driver. -/
def run_without_animation (env : Env) (action : String) (hold_time : Nat) :
    ExecResult :=
  let pre : List Event :=
    [.debugLog ("Running without animation: " ++ action),
     .print ("Executing " ++ action ++ " (no animation)...")]
  match POWER_COMMANDS action with
  | none =>
    { trace := pre
        ++ [.debugLog ("[TEST] No animation, waiting " ++ toString hold_time
              ++ " seconds..."),
            .print ("[TEST] No animation. Waiting " ++ toString hold_time
              ++ " seconds..."),
            .sleep hold_time,
            .debugLog "[TEST] Done",
            .print "[TEST] Done."],
      outcome := .returns }
  | some cmd0 =>
    let logoutPart : List Event × Option (List String) :=
      if action = "logout" then
        let sid := get_session_id env.loginctlOut
        if sid ≠ "" then
          ([.runSync LIST_SESSIONS_CMD], some ["loginctl", "terminate-session", sid])
        else
          ([.runSync LIST_SESSIONS_CMD,
            .printErr "ERROR: Could not determine session ID for logout"],
           none)
      else ([], some cmd0)
    match logoutPart with
    | (tr, none) => { trace := pre ++ tr, outcome := .returns }
    | (tr, some cmd) =>
      -- Windows: the boot-entry write is run but its return code is not
      -- inspected here — no warning branch exists in this function.
      let winTr : List Event :=
        if action = "windows" then [.runSync EFIBOOTMGR_CMD] else []
      let cmdStr := String.intercalate " " cmd
      { trace := pre ++ tr ++ winTr
          ++ [.debugLog ("Executing: " ++ cmdStr), .runSync cmd],
        outcome := .returns }

/-! ## `AnimationProcess.start` / `terminate` / `is_running` -/

/-- How `AnimationProcess.start()` ends. -/
inductive StartResult where
  /-- returned `True`: the script exists, the subprocess was spawned. -/
  | ok
  /-- returned `False`: the script path does not name an existing file. -/
  | failed
  /-- an exception escaped (nothing in `start` catches). -/
  | raised (exn : String)
deriving DecidableEq, Repr

/-- `AnimationProcess.start()`.  `script_path` is what discovery returned
(`None` possible); `fsExists` is `os.path.exists` on string paths.
`os.path.exists(None)` raises `TypeError` (only `OSError`/`ValueError` are
swallowed by `os.path.exists`), and `start` has no handler for it. -/
def animation_start (script_path : Option String) (fsExists : String → Bool) :
    StartResult × List Event :=
  match script_path with
  | none => (.raised "TypeError", [])
  | some p =>
    if !fsExists p then
      (.failed,
       [.debugLog ("ERROR: Animation script not found: " ++ p),
        .printErr ("ERROR: Animation script not found: " ++ p)])
    else
      (.ok, [.debugLog ("Starting animation: " ++ p), .spawnAnimation p])

/-- Process-level effects of `AnimationProcess.terminate()`. -/
inductive ProcEvent where
  /-- `self.process.terminate()` — the graceful termination request. -/
  | termSignal
  /-- `self.process.wait(timeout=t)`. -/
  | waitProc (timeout : Nat)
  /-- `self.process.kill()` — the forced kill. -/
  | killProc
deriving DecidableEq, Repr

/-- `AnimationProcess.terminate()`: a no-op when `self.process` is `None`
(`start` never ran or never spawned); otherwise terminate, wait up to 2s,
and kill only if that wait raised `TimeoutExpired` (the process had not
exited within the grace period).  No exception escapes: the only raiser,
`wait`, is caught. -/
def animation_terminate (hasProcess : Bool) (exitsWithinGrace : Bool) :
    List ProcEvent :=
  if hasProcess then
    [.termSignal, .waitProc 2] ++ (if exitsWithinGrace then [] else [.killProc])
  else []

/-- `AnimationProcess.is_running()`:
`self.process is not None and self.process.poll() is None`. -/
def animation_is_running (hasProcess : Bool) (pollIsNone : Bool) : Bool :=
  hasProcess && pollIsNone

/-! ## `main` -/

/-- External outcomes consumed by `main`. -/
structure MainEnv where
  /-- `get_animation_script(name)`: the discovery collaborator's answer. -/
  scriptFor : String → Option String
  /-- `os.path.exists` on string paths. -/
  fsExists : String → Bool
  /-- whether the ready latch is set by the time the 5s wait would give up. -/
  readyArrives : Bool
  /-- whether the black latch is set by the time the 30s wait would give up. -/
  blackArrives : Bool
  /-- stdout of `loginctl list-sessions`; `none` = the lookup raised. -/
  loginctlOut : Option String
  /-- whether the `efibootmgr` write exits non-zero. -/
  efibootmgrFails : Bool
  /-- stderr text of the `efibootmgr` run. -/
  efibootmgrStderr : String

/-- The driver-level environment inside a `MainEnv`. -/
def MainEnv.toEnv (env : MainEnv) : Env :=
  ⟨env.loginctlOut, env.efibootmgrFails, env.efibootmgrStderr⟩

/-- How a `main` run ends: a return code, the infinite hold loop, or an
uncaught exception (the Python interpreter then exits with code 1 after a
traceback, without having executed any further statement of `main`). -/
inductive Outcome where
  | exits (code : Nat)
  | holds
  | raises (exn : String)
deriving DecidableEq, Repr

/-- Trace and outcome of a whole `main` run. -/
structure RunResult where
  trace : List Event
  outcome : Outcome
deriving DecidableEq, Repr

/-- Python renders the float `n.0` in an f-string. -/
def pyFloat (n : Nat) : String := toString n ++ ".0"

/-- Trace of `wait_ready(timeout)`: debug line, the event wait, and the
timeout warning when the wait came back false. -/
def wait_ready_events (latch arrives : Bool) (timeout : Nat) : List Event :=
  [.debugLog ("Waiting for READY signal (timeout=" ++ pyFloat timeout ++ "s)"),
   .waitReadyEv timeout]
  ++ (if event_wait latch arrives then []
      else [.debugLog "WARNING: Timeout waiting for READY signal"])

/-- Trace of `wait_black(timeout)`. -/
def wait_black_events (latch arrives : Bool) (timeout : Nat) : List Event :=
  [.debugLog ("Waiting for BLACK signal (timeout=" ++ pyFloat timeout ++ "s)"),
   .waitBlackEv timeout]
  ++ (if event_wait latch arrives then []
      else [.debugLog "WARNING: Timeout waiting for BLACK signal"])

/-- `main()` after argument parsing: `action`, `animation_name` and
`hold_time` are the parsed arguments.  Signal-handler installation and the
debug-log truncation have no bearing on any claim and carry no trace entry;
the opening `debug_log` line is kept.  Both latches are unset when `main`
calls the waits (only the reader thread sets them; `readyArrives` /
`blackArrives` say whether the latch is set during the wait's window). -/
def main (env : MainEnv) (action animation_name : String) (hold_time : Nat) :
    RunResult :=
  let pre : List Event :=
    [.debugLog ("Starting power-manager: action=" ++ action ++ ", animation="
        ++ animation_name)]
  if animation_name = "none" then
    let r := run_without_animation env.toEnv action hold_time
    { trace := pre ++ r.trace, outcome := .exits 0 }
  else
    let step1 := pre
      ++ [.print ("[1/3] Starting " ++ animation_name ++ " animation...")]
    match animation_start (env.scriptFor animation_name) env.fsExists with
    | (.raised exn, tr) =>
      { trace := step1 ++ tr, outcome := .raises exn }
    | (.failed, tr) =>
      { trace := step1 ++ tr ++ [.printErr "ERROR: Failed to start animation"],
        outcome := .exits 1 }
    | (.ok, tr) =>
      let readyRes := event_wait false env.readyArrives
      let blackRes := event_wait false env.blackArrives
      let wr : List Event :=
        [.print "[2/3] Waiting for overlay..."]
        ++ wait_ready_events false env.readyArrives 5
        ++ (if readyRes then []
            else [.printErr "WARNING: Animation did not signal READY, proceeding anyway"])
      let wb : List Event :=
        [.print "[3/3] Animation playing..."]
        ++ wait_black_events false env.blackArrives 30
        ++ (if blackRes then []
            else [.printErr "WARNING: Animation did not signal BLACK, proceeding anyway"])
      let ex := execute_power_action env.toEnv action true hold_time
      { trace := step1 ++ tr ++ wr ++ wb
          ++ [.print "Animation complete.", .debugLog "Executing power action..."]
          ++ ex.trace,
        outcome := match ex.outcome with
          | .returns => .exits 0
          | .holds => .holds }

/-! ## Trace predicates -/

/-- Whether an event is a warning surfaced to the user: a write to stderr, or
a debug-log line that starts with `WARNING`.  (Prefix test done on character
lists so that concrete instances evaluate inside the kernel.) -/
def isWarningEvt : Event → Bool
  | .printErr _ => true
  | .debugLog m => "WARNING".data.isPrefixOf m.data
  | _ => false

/-- Whether an event starts any subprocess at all (detached launch,
synchronous run, or the animation spawn). -/
def spawnsProcess : Event → Bool
  | .launchDetached _ => true
  | .runSync _ => true
  | .spawnAnimation _ => true
  | _ => false

/-- Whether an event launches an OS command (detached or synchronous) —
everything `execute_power_action` / `run_without_animation` do to run a
power command or one of its prerequisites. -/
def isCmdLaunchEvt : Event → Bool
  | .launchDetached _ => true
  | .runSync _ => true
  | _ => false

/-- Whether an event is a `black_event.wait`. -/
def isWaitBlackEvt : Event → Bool
  | .waitBlackEv _ => true
  | _ => false

/-! ## Theorems -/

/-- C1: when the animation subprocess's output stream ends (process exit or a
read exception) before a `READY` or `BLACK` line was seen, the `finally`
block of `_read_signals` sets both latches, so every subsequent `wait_ready`
and `wait_black` returns true whatever would otherwise have happened during
the timeout window (i.e. without blocking for it). -/
theorem fail_open_on_reader_exit (s : AnimEvents) (lines : List String)
    (_hno : ∀ l ∈ lines, pyStrip l ≠ "READY" ∧ pyStrip l ≠ "BLACK") :
    (read_signals s lines).ready = true ∧
    (read_signals s lines).black = true ∧
    (∀ arrives, wait_ready_result (read_signals s lines) arrives = true) ∧
    (∀ arrives, wait_black_result (read_signals s lines) arrives = true) := by
  refine ⟨rfl, rfl, ?_, ?_⟩ <;>
    intro arrives <;>
    simp [wait_ready_result, wait_black_result, read_signals, event_wait]

/-- C1 witness: a stream that ended after emitting only noise. -/
theorem fail_open_on_reader_exit_witness :
    (read_signals animInit ["Traceback (most recent call last):"]).ready = true ∧
    (read_signals animInit ["Traceback (most recent call last):"]).black = true ∧
    (∀ arrives,
      wait_ready_result (read_signals animInit ["Traceback (most recent call last):"]) arrives = true) ∧
    (∀ arrives,
      wait_black_result (read_signals animInit ["Traceback (most recent call last):"]) arrives = true) :=
  fail_open_on_reader_exit animInit ["Traceback (most recent call last):"]
    (by intro l hl; simp only [List.mem_singleton] at hl; subst hl
        exact ⟨by decide, by decide⟩)

/-- C2: the two handshake latches are monotonic (no `AnimationProcess`
operation ever clears a set latch), every operation is idempotent on the
latch state (a duplicate or late `READY`/`BLACK` line changes nothing), and
once a latch is set every wait on it returns true immediately (for any
behaviour of the rest of the timeout window). -/
theorem latches_monotone_idempotent :
    (∀ (s : AnimEvents) (op : AnimOp),
      s.ready = true → (applyAnimOp s op).ready = true) ∧
    (∀ (s : AnimEvents) (op : AnimOp),
      s.black = true → (applyAnimOp s op).black = true) ∧
    (∀ (s : AnimEvents) (op : AnimOp),
      applyAnimOp (applyAnimOp s op) op = applyAnimOp s op) ∧
    (∀ (s : AnimEvents) (arrives : Bool),
      s.ready = true → wait_ready_result s arrives = true) ∧
    (∀ (s : AnimEvents) (arrives : Bool),
      s.black = true → wait_black_result s arrives = true) := by
  refine ⟨?_, ?_, ?_, ?_, ?_⟩
  · intro s op h
    cases op with
    | readLine line =>
      simp only [applyAnimOp, processLine]
      split_ifs <;> simp [h]
    | readerExit => rfl
    | _ => exact h
  · intro s op h
    cases op with
    | readLine line =>
      simp only [applyAnimOp, processLine]
      split_ifs <;> simp [h]
    | readerExit => rfl
    | _ => exact h
  · intro s op
    cases op with
    | readLine line =>
      simp only [applyAnimOp, processLine]
      split_ifs <;> simp
    | _ => rfl
  · intro s arrives h
    simp [wait_ready_result, event_wait, h]
  · intro s arrives h
    simp [wait_black_result, event_wait, h]

/-- C2 witness: a duplicate `READY` line is a no-op, and a set latch answers
waits immediately. -/
theorem latches_monotone_idempotent_witness :
    (applyAnimOp ⟨true, false⟩ (.readLine "BLACK")).ready = true ∧
    applyAnimOp (applyAnimOp animInit (.readLine "READY")) (.readLine "READY")
      = applyAnimOp animInit (.readLine "READY") ∧
    wait_ready_result ⟨true, false⟩ false = true ∧
    wait_black_result ⟨false, true⟩ false = true :=
  ⟨latches_monotone_idempotent.1 ⟨true, false⟩ (.readLine "BLACK") rfl,
   latches_monotone_idempotent.2.2.1 animInit (.readLine "READY"),
   latches_monotone_idempotent.2.2.2.1 ⟨true, false⟩ false rfl,
   latches_monotone_idempotent.2.2.2.2 ⟨false, true⟩ false rfl⟩

/-- C4: `send_ipc_with_retry` makes at most 5 `send_ipc` calls; when the
first success is at 0-based attempt `k` it returns true having made exactly
`k + 1` calls (none after the success) and slept exactly `k` times (once
after each failed attempt, never after the success); and when all 5 attempts
fail it returns false after exactly 5 calls and 4 sleeps (no sleep after the
last attempt). -/
theorem ipc_retry_bound :
    (∀ ipc : Nat → Bool, (send_ipc_with_retry ipc).2.1 ≤ 5) ∧
    (∀ (ipc : Nat → Bool) (k : Nat), k < 5 → ipc k = true →
      (∀ j, j < k → ipc j = false) →
      send_ipc_with_retry ipc = (true, k + 1, k)) ∧
    (∀ ipc : Nat → Bool, (∀ j, j < 5 → ipc j = false) →
      send_ipc_with_retry ipc = (false, 5, 4)) := by
  refine ⟨?_, ?_, ?_⟩
  · intro ipc
    simp only [send_ipc_with_retry]
    cases h0 : ipc 0 <;> cases h1 : ipc 1 <;> cases h2 : ipc 2 <;>
      cases h3 : ipc 3 <;> cases h4 : ipc 4 <;>
      simp [retryFrom, h0, h1, h2, h3, h4]
  · intro ipc k hk hks hbefore
    interval_cases k <;>
      simp only [send_ipc_with_retry] <;>
      rw [retryFrom] <;>
      simp_all [retryFrom, fun j (h : j < 5) => hbefore j]
  · intro ipc hall
    have h0 := hall 0 (by omega)
    have h1 := hall 1 (by omega)
    have h2 := hall 2 (by omega)
    have h3 := hall 3 (by omega)
    have h4 := hall 4 (by omega)
    simp [send_ipc_with_retry, retryFrom, h0, h1, h2, h3, h4]

/-- C4 witness: first success at attempt 2 → 3 calls, 2 sleeps; all failing
→ 5 calls, 4 sleeps. -/
theorem ipc_retry_bound_witness :
    (send_ipc_with_retry (fun k => decide (k = 2))).2.1 ≤ 5 ∧
    send_ipc_with_retry (fun k => decide (k = 2)) = (true, 3, 2) ∧
    send_ipc_with_retry (fun _ => false) = (false, 5, 4) :=
  ⟨ipc_retry_bound.1 (fun k => decide (k = 2)),
   ipc_retry_bound.2.1 (fun k => decide (k = 2)) 2 (by omega) (by decide)
     (by decide),
   ipc_retry_bound.2.2 (fun _ => false) (fun j _ => rfl)⟩

/-- C10: with no underlying subprocess (`start()` never ran or never
spawned), `terminate()` does nothing and `is_running()` is false; with a
subprocess, `terminate()` first requests graceful termination and waits up
to 2 seconds, and issues the forced kill exactly when that grace period
expires without the process exiting. -/
theorem terminate_unstarted_safe :
    (∀ g, animation_terminate false g = []) ∧
    (∀ p, animation_is_running false p = false) ∧
    animation_terminate true true = [.termSignal, .waitProc 2] ∧
    animation_terminate true false = [.termSignal, .waitProc 2, .killProc] := by
  refine ⟨fun g => by cases g <;> rfl, fun p => by cases p <;> rfl, rfl, rfl⟩

/-- C5: on the animation path, `execute_power_action` for `suspend` and for
`hibernate` launches the power command detached, sleeps exactly 3 seconds,
terminates the animation, calls the unfreeze and show-cursor IPC cleanups
with retry enabled, and returns — the trace is exactly this sequence, with
no hold loop. -/
theorem suspend_path_returns (env : Env) (hold_time : Nat) :
    (∀ action cmd, (action = "suspend" ∧ cmd = ["systemctl", "suspend"]) ∨
        (action = "hibernate" ∧ cmd = ["systemctl", "hibernate"]) →
      execute_power_action env action true hold_time =
        { trace := [.debugLog ("Executing power action: "
                      ++ String.intercalate " " cmd),
                    .print ("Executing: " ++ String.intercalate " " cmd),
                    .launchDetached cmd,
                    .debugLog "Waiting for resume from suspend/hibernate...",
                    .sleep 3,
                    .terminateAnimation,
                    .ipcCleanup "screen-freeze/unfreeze" true,
                    .ipcCleanup "cursor-control/show" true,
                    .debugLog "Resumed from suspend/hibernate, compositor unfrozen"],
          outcome := .returns }) := by
  rintro action cmd (⟨ha, hc⟩ | ⟨ha, hc⟩) <;> subst ha <;> subst hc <;> rfl

/-- C5 witness: the suspend instance. -/
theorem suspend_path_returns_witness :
    execute_power_action ⟨some "", false, ""⟩ "suspend" true 3 =
      { trace := [.debugLog "Executing power action: systemctl suspend",
                  .print "Executing: systemctl suspend",
                  .launchDetached ["systemctl", "suspend"],
                  .debugLog "Waiting for resume from suspend/hibernate...",
                  .sleep 3,
                  .terminateAnimation,
                  .ipcCleanup "screen-freeze/unfreeze" true,
                  .ipcCleanup "cursor-control/show" true,
                  .debugLog "Resumed from suspend/hibernate, compositor unfrozen"],
        outcome := .returns } :=
  suspend_path_returns ⟨some "", false, ""⟩ 3 "suspend" ["systemctl", "suspend"]
    (Or.inl ⟨rfl, rfl⟩)

/-- C6: when the session lookup comes back empty, a `logout` run aborts after
printing an error.  In the animated driver: the session enumeration is the
only command run, the error is printed, the animation is terminated, and the
function returns without launching anything.  In the no-animation driver:
likewise, no `loginctl terminate-session` is ever issued. -/
theorem logout_without_session_aborts (env : Env) (hold_time : Nat)
    (h : get_session_id env.loginctlOut = "") :
    execute_power_action env "logout" true hold_time =
      { trace := [.runSync LIST_SESSIONS_CMD,
                  .debugLog "ERROR: Could not determine session ID for logout",
                  .printErr "ERROR: Could not determine session ID for logout",
                  .terminateAnimation],
        outcome := .returns } ∧
    run_without_animation env "logout" hold_time =
      { trace := [.debugLog "Running without animation: logout",
                  .print "Executing logout (no animation)...",
                  .runSync LIST_SESSIONS_CMD,
                  .printErr "ERROR: Could not determine session ID for logout"],
        outcome := .returns } ∧
    (∀ c, Event.launchDetached c ∉
        (execute_power_action env "logout" true hold_time).trace) ∧
    (∀ c, Event.runSync c ∈
        (execute_power_action env "logout" true hold_time).trace →
      c = LIST_SESSIONS_CMD) ∧
    (∀ c, Event.launchDetached c ∉
        (run_without_animation env "logout" hold_time).trace) ∧
    (∀ c, Event.runSync c ∈ (run_without_animation env "logout" hold_time).trace →
      c = LIST_SESSIONS_CMD) := by
  refine ⟨?_, ?_, ?_, ?_, ?_, ?_⟩ <;>
    simp [execute_power_action, run_without_animation, POWER_COMMANDS, h]

/-- C6 witness: the lookup raised, so the session id is empty. -/
theorem logout_without_session_aborts_witness :
    execute_power_action ⟨none, false, ""⟩ "logout" true 3 =
      { trace := [.runSync LIST_SESSIONS_CMD,
                  .debugLog "ERROR: Could not determine session ID for logout",
                  .printErr "ERROR: Could not determine session ID for logout",
                  .terminateAnimation],
        outcome := .returns } ∧
    run_without_animation ⟨none, false, ""⟩ "logout" 3 =
      { trace := [.debugLog "Running without animation: logout",
                  .print "Executing logout (no animation)...",
                  .runSync LIST_SESSIONS_CMD,
                  .printErr "ERROR: Could not determine session ID for logout"],
        outcome := .returns } :=
  ⟨(logout_without_session_aborts ⟨none, false, ""⟩ 3 rfl).1,
   (logout_without_session_aborts ⟨none, false, ""⟩ 3 rfl).2.1⟩

/-- C7 counterexample: in the no-animation path with a failing boot-entry
write, the reboot command is still issued but the whole trace holds not one
warning event — contradicting the claim that every path surfaces a warning
on a non-zero `efibootmgr` exit. -/
theorem windows_warning_counterexample :
    run_without_animation ⟨some "s1 seat0", true, "boom"⟩ "windows" 3 =
      { trace := [.debugLog "Running without animation: windows",
                  .print "Executing windows (no animation)...",
                  .runSync EFIBOOTMGR_CMD,
                  .debugLog "Executing: sudo -A reboot",
                  .runSync ["sudo", "-A", "reboot"]],
        outcome := .returns } ∧
    ((run_without_animation ⟨some "s1 seat0", true, "boom"⟩ "windows" 3).trace.filter
        isWarningEvt) = [] := by
  constructor
  · rfl
  · simp [run_without_animation, POWER_COMMANDS, isWarningEvt]

/-- C7 amended: in the animated driver a failing boot-entry write surfaces a
stderr warning and the reboot command is still launched (the run proceeds
into the hold loop rather than aborting); in the no-animation driver the
write's exit status is never inspected — no warning of any kind appears —
yet the reboot command is still issued and the run completes. -/
theorem windows_bootentry_best_effort (env : Env) (hold_time : Nat)
    (h : env.efibootmgrFails = true) :
    Event.printErr "WARNING: Could not set Windows boot entry" ∈
      (execute_power_action env "windows" true hold_time).trace ∧
    Event.launchDetached ["sudo", "-A", "reboot"] ∈
      (execute_power_action env "windows" true hold_time).trace ∧
    (execute_power_action env "windows" true hold_time).outcome = .holds ∧
    ((run_without_animation env "windows" hold_time).trace.filter isWarningEvt)
      = [] ∧
    Event.runSync ["sudo", "-A", "reboot"] ∈
      (run_without_animation env "windows" hold_time).trace ∧
    (run_without_animation env "windows" hold_time).outcome = .returns := by
  refine ⟨?_, ?_, ?_, ?_, ?_, ?_⟩ <;>
    simp [execute_power_action, run_without_animation, POWER_COMMANDS, h,
      isWarningEvt]

/-- C3: on the animation path (animation started), `main`'s trace decomposes
as: a prefix free of any black-wait and of any command launch, then the
ready wait with timeout 5, then a middle free of command launches, then the
black wait with timeout 30, then (still launch-free) the hand-off into
`execute_power_action` — whatever the two wait outcomes are; and each
timed-out wait surfaces its stderr warning.  So the ready wait is always
attempted before the black wait, and the power action runs only after both,
timeouts never preventing it. -/
theorem handshake_waits_precede_action (env : MainEnv) (action name : String)
    (hold_time : Nat) (p : String) (hname : name ≠ "none")
    (hp : env.scriptFor name = some p) (hex : env.fsExists p = true) :
    ∃ t₁ t₂ t₃,
      (main env action name hold_time).trace =
        t₁ ++ Event.waitReadyEv 5 :: t₂ ++ Event.waitBlackEv 30 :: t₃
          ++ Event.debugLog "Executing power action..."
            :: (execute_power_action env.toEnv action true hold_time).trace ∧
      (∀ e ∈ t₁, isWaitBlackEvt e = false) ∧
      (∀ e ∈ t₁ ++ t₂ ++ t₃, isCmdLaunchEvt e = false) ∧
      (env.readyArrives = false →
        Event.printErr "WARNING: Animation did not signal READY, proceeding anyway"
          ∈ (main env action name hold_time).trace) ∧
      (env.blackArrives = false →
        Event.printErr "WARNING: Animation did not signal BLACK, proceeding anyway"
          ∈ (main env action name hold_time).trace) := by
  refine ⟨[.debugLog ("Starting power-manager: action=" ++ action
              ++ ", animation=" ++ name),
           .print ("[1/3] Starting " ++ name ++ " animation..."),
           .debugLog ("Starting animation: " ++ p),
           .spawnAnimation p,
           .print "[2/3] Waiting for overlay...",
           .debugLog ("Waiting for READY signal (timeout=" ++ pyFloat 5 ++ "s)")],
         (if env.readyArrives then []
          else [Event.debugLog "WARNING: Timeout waiting for READY signal",
                Event.printErr "WARNING: Animation did not signal READY, proceeding anyway"])
           ++ [.print "[3/3] Animation playing...",
               .debugLog ("Waiting for BLACK signal (timeout=" ++ pyFloat 30 ++ "s)")],
         (if env.blackArrives then []
          else [Event.debugLog "WARNING: Timeout waiting for BLACK signal",
                Event.printErr "WARNING: Animation did not signal BLACK, proceeding anyway"])
           ++ [.print "Animation complete."], ?_, ?_, ?_, ?_, ?_⟩
  · cases hr : env.readyArrives <;> cases hb : env.blackArrives <;>
      simp [main, hname, hp, hex, animation_start, wait_ready_events,
        wait_black_events, event_wait, hr, hb]
  · intro e he
    fin_cases he <;> rfl
  · cases hr : env.readyArrives <;> cases hb : env.blackArrives <;>
      simp [hr, hb, isCmdLaunchEvt]
  · intro hr
    cases hb : env.blackArrives <;>
      simp [main, hname, hp, hex, animation_start, wait_ready_events,
        wait_black_events, event_wait, hr, hb]
  · intro hb
    cases hr : env.readyArrives <;>
      simp [main, hname, hp, hex, animation_start, wait_ready_events,
        wait_black_events, event_wait, hr, hb]

/-- C3 witness: a started `fire` animation for `shutdown`, with both waits
timing out. -/
theorem handshake_waits_precede_action_witness :
    ∃ t₁ t₂ t₃,
      (main ⟨fun _ => some "/x/animate.py", fun _ => true, false, false,
          some "s1 seat0", false, ""⟩ "shutdown" "fire" 3).trace =
        t₁ ++ Event.waitReadyEv 5 :: t₂ ++ Event.waitBlackEv 30 :: t₃
          ++ Event.debugLog "Executing power action..."
            :: (execute_power_action
                  (MainEnv.toEnv ⟨fun _ => some "/x/animate.py", fun _ => true,
                    false, false, some "s1 seat0", false, ""⟩)
                  "shutdown" true 3).trace ∧
      (∀ e ∈ t₁, isWaitBlackEvt e = false) ∧
      (∀ e ∈ t₁ ++ t₂ ++ t₃, isCmdLaunchEvt e = false) ∧
      ((false : Bool) = false →
        Event.printErr "WARNING: Animation did not signal READY, proceeding anyway"
          ∈ (main ⟨fun _ => some "/x/animate.py", fun _ => true, false, false,
              some "s1 seat0", false, ""⟩ "shutdown" "fire" 3).trace) ∧
      ((false : Bool) = false →
        Event.printErr "WARNING: Animation did not signal BLACK, proceeding anyway"
          ∈ (main ⟨fun _ => some "/x/animate.py", fun _ => true, false, false,
              some "s1 seat0", false, ""⟩ "shutdown" "fire" 3).trace) :=
  handshake_waits_precede_action
    ⟨fun _ => some "/x/animate.py", fun _ => true, false, false,
      some "s1 seat0", false, ""⟩
    "shutdown" "fire" 3 "/x/animate.py" (by decide) rfl rfl

/-- C7 amended witness. -/
theorem windows_bootentry_best_effort_witness :
    Event.printErr "WARNING: Could not set Windows boot entry" ∈
      (execute_power_action ⟨some "s1 seat0", true, "boom"⟩ "windows" true 3).trace ∧
    Event.runSync ["sudo", "-A", "reboot"] ∈
      (run_without_animation ⟨some "s1 seat0", true, "boom"⟩ "windows" 3).trace :=
  ⟨(windows_bootentry_best_effort ⟨some "s1 seat0", true, "boom"⟩ 3 rfl).1,
   (windows_bootentry_best_effort ⟨some "s1 seat0", true, "boom"⟩ 3 rfl).2.2.2.2.1⟩

/-- C8 counterexample: when the discovery collaborator yields no path at
all, `start()` does not return failure — the `os.path.exists(None)` check
raises `TypeError` — and `main` ends with that uncaught exception rather
than through its `return 1` statement. -/
theorem start_none_raises_counterexample :
    animation_start none (fun _ => true) = (StartResult.raised "TypeError", []) ∧
    (main ⟨fun _ => none, fun _ => true, true, true, some "s1 seat0", false, ""⟩
      "shutdown" "fire" 3).outcome = Outcome.raises "TypeError" :=
  ⟨rfl, rfl⟩

/-- C8 amended: if discovery yields a path that does not name an existing
file, `start()` returns failure without spawning anything and `main` aborts
with exit code 1, having started no subprocess at all (so no power
command).  If discovery yields no path, `start()` instead raises `TypeError`
from the existence check; `main` terminates on that uncaught exception
(the interpreter's exit status is 1, but `main`'s own `return 1` is never
reached), and again no subprocess of any kind is started. -/
theorem animation_missing_aborts (env : MainEnv) (action name : String)
    (hold_time : Nat) (hname : name ≠ "none") :
    (∀ p, env.scriptFor name = some p → env.fsExists p = false →
      animation_start (env.scriptFor name) env.fsExists
        = (.failed, [.debugLog ("ERROR: Animation script not found: " ++ p),
                     .printErr ("ERROR: Animation script not found: " ++ p)]) ∧
      (main env action name hold_time).outcome = .exits 1 ∧
      Event.printErr "ERROR: Failed to start animation"
        ∈ (main env action name hold_time).trace ∧
      (∀ e ∈ (main env action name hold_time).trace, spawnsProcess e = false)) ∧
    (env.scriptFor name = none →
      animation_start (env.scriptFor name) env.fsExists
        = (.raised "TypeError", []) ∧
      (main env action name hold_time).outcome = .raises "TypeError" ∧
      (∀ e ∈ (main env action name hold_time).trace, spawnsProcess e = false)) := by
  constructor
  · intro p hp hex
    refine ⟨?_, ?_, ?_, ?_⟩
    · rw [hp]; simp [animation_start, hex]
    · simp [main, hname, hp, hex, animation_start]
    · simp [main, hname, hp, hex, animation_start]
    · simp [main, hname, hp, hex, animation_start, spawnsProcess]
  · intro hp
    refine ⟨?_, ?_, ?_⟩
    · rw [hp]; rfl
    · simp [main, hname, hp, animation_start]
    · simp [main, hname, hp, animation_start, spawnsProcess]

/-- C8 amended witness: a missing script file, and an absent discovery
result. -/
theorem animation_missing_aborts_witness :
    (main ⟨fun _ => some "/x/animate.py", fun _ => false, true, true,
        some "s1 seat0", false, ""⟩ "shutdown" "fire" 3).outcome = .exits 1 ∧
    (main ⟨fun _ => none, fun _ => true, true, true,
        some "s1 seat0", false, ""⟩ "shutdown" "fire" 3).outcome
      = .raises "TypeError" :=
  ⟨((animation_missing_aborts
      ⟨fun _ => some "/x/animate.py", fun _ => false, true, true,
        some "s1 seat0", false, ""⟩ "shutdown" "fire" 3 (by decide)).1
      "/x/animate.py" rfl rfl).2.1,
   ((animation_missing_aborts
      ⟨fun _ => none, fun _ => true, true, true,
        some "s1 seat0", false, ""⟩ "shutdown" "fire" 3 (by decide)).2
      rfl).2.1⟩

/-- C9: the command template for `test` is the null template; a `test` run
(any animation name, any environment) launches no OS command in either
path; and when the run proceeds (no-animation, or the animation started) it
sleeps for the hold duration, prints the completion message, and exits 0. -/
theorem test_never_spawns_power_command (env : MainEnv) (name : String)
    (hold_time : Nat) :
    POWER_COMMANDS "test" = none ∧
    (∀ e ∈ (main env "test" name hold_time).trace, isCmdLaunchEvt e = false) ∧
    (name = "none" →
      main env "test" name hold_time =
        { trace := [.debugLog "Starting power-manager: action=test, animation=none",
                    .debugLog "Running without animation: test",
                    .print "Executing test (no animation)...",
                    .debugLog ("[TEST] No animation, waiting "
                        ++ toString hold_time ++ " seconds..."),
                    .print ("[TEST] No animation. Waiting "
                        ++ toString hold_time ++ " seconds..."),
                    .sleep hold_time,
                    .debugLog "[TEST] Done",
                    .print "[TEST] Done."],
          outcome := .exits 0 }) ∧
    (∀ p, name ≠ "none" → env.scriptFor name = some p → env.fsExists p = true →
      (main env "test" name hold_time).outcome = .exits 0 ∧
      Event.sleep hold_time ∈ (main env "test" name hold_time).trace ∧
      Event.print "[TEST] Done." ∈ (main env "test" name hold_time).trace) := by
  refine ⟨rfl, ?_, ?_, ?_⟩
  · by_cases hn : name = "none"
    · subst hn
      simp [main, run_without_animation, MainEnv.toEnv, POWER_COMMANDS,
        isCmdLaunchEvt]
    · rcases hsp : env.scriptFor name with _ | p
      · simp [main, hn, hsp, animation_start, isCmdLaunchEvt]
      · cases hfs : env.fsExists p
        · simp [main, hn, hsp, hfs, animation_start, isCmdLaunchEvt]
        · cases hr : env.readyArrives <;> cases hb : env.blackArrives <;>
            simp [main, hn, hsp, hfs, hr, hb, animation_start,
              wait_ready_events, wait_black_events, event_wait,
              execute_power_action, POWER_COMMANDS, MainEnv.toEnv,
              isCmdLaunchEvt]
  · intro hn
    subst hn
    rfl
  · intro p hn hsp hfs
    cases hr : env.readyArrives <;> cases hb : env.blackArrives <;>
      refine ⟨?_, ?_, ?_⟩ <;>
        simp [main, hn, hsp, hfs, hr, hb, animation_start,
          wait_ready_events, wait_black_events, event_wait,
          execute_power_action, POWER_COMMANDS, MainEnv.toEnv]

/-- C9 witness: Scenario A (`test`, `none`, hold 2) and an animated test. -/
theorem test_never_spawns_power_command_witness :
    (main ⟨fun _ => some "/x/animate.py", fun _ => true, true, true,
        some "s1 seat0", false, ""⟩ "test" "none" 2).outcome = .exits 0 ∧
    (main ⟨fun _ => some "/x/animate.py", fun _ => true, true, true,
        some "s1 seat0", false, ""⟩ "test" "fire" 2).outcome = .exits 0 := by
  constructor
  · rw [congrArg RunResult.outcome
      ((test_never_spawns_power_command
        ⟨fun _ => some "/x/animate.py", fun _ => true, true, true,
          some "s1 seat0", false, ""⟩ "none" 2).2.2.1 rfl)]
  · exact ((test_never_spawns_power_command
      ⟨fun _ => some "/x/animate.py", fun _ => true, true, true,
        some "s1 seat0", false, ""⟩ "fire" 2).2.2.2
      "/x/animate.py" (by decide) rfl rfl).1

end PowerManager
